import Mathlib

/-!
Verification of the furca resource module (src/furca/resource.py) against its
natural-language specification.  The Python code is embedded shallowly:

* machine-level OS effects (getaddrinfo, socket creation, fd duplication) are
  passed in as explicit oracle parameters or state records;
* Python exceptions become an explicit `Except PyErr` result;
* the external `ipaddress` standard-library parsing and printing is modelled
  from its documented textual forms (dotted-quad IPv4; grouped-hex IPv6 with a
  single optional `::` compression, no embedded IPv4 suffix or zone id);
* Python `str.split`, `int(...)` and string formatting are modelled by
  structurally recursive functions on the character list of the string so that
  every definition evaluates inside the kernel.
-/

/-- Python exceptions raised by the embedded code paths. -/
inductive PyErr where
  | valueError (msg : String)
  | indexError
  | unboundLocalError (varName : String)
deriving DecidableEq

/-- Decidable equality for Except results, so that concrete runs of the
embedded code can be checked by decide. -/
def exceptDecEq {ε α : Type} [DecidableEq ε] [DecidableEq α] :
    (x y : Except ε α) → Decidable (x = y)
  | .error e, .error f =>
    if h : e = f then .isTrue (congrArg Except.error h)
    else .isFalse (fun he => h (Except.error.inj he))
  | .ok a, .ok b =>
    if h : a = b then .isTrue (congrArg Except.ok h)
    else .isFalse (fun he => h (Except.ok.inj he))
  | .error _, .ok _ => .isFalse (fun he => Except.noConfusion he)
  | .ok _, .error _ => .isFalse (fun he => Except.noConfusion he)

instance {ε α : Type} [DecidableEq ε] [DecidableEq α] : DecidableEq (Except ε α) :=
  exceptDecEq

/-- Linux value of socket.AF_INET. -/
def AF_INET : Nat := 2

/-- Linux value of socket.AF_INET6. -/
def AF_INET6 : Nat := 10

/-- Linux value of socket.SOCK_STREAM. -/
def SOCK_STREAM : Nat := 1

/-- Linux value of socket.SOCK_DGRAM. -/
def SOCK_DGRAM : Nat := 2

/-- Linux value of socket.IPPROTO_TCP. -/
def IPPROTO_TCP : Nat := 6

/-- Linux value of socket.IPPROTO_UDP. -/
def IPPROTO_UDP : Nat := 17

/-- Value of `ipaddress.IPv4Address` (four octets) or `ipaddress.IPv6Address`
(eight 16-bit groups). -/
inductive IPAddress where
  | v4 : Nat → Nat → Nat → Nat → IPAddress
  | v6 : List Nat → IPAddress
deriving DecidableEq

/-- Split a character list at every occurrence of a separator character,
like Python `str.split(sep)` for a one-character separator. -/
def splitOnChar (sep : Char) : List Char → List (List Char)
  | [] => [[]]
  | c :: cs =>
    if c = sep then [] :: splitOnChar sep cs
    else
      match splitOnChar sep cs with
      | [] => [[c]]
      | g :: gs => (c :: g) :: gs

/-- Break a character list at the first occurrence of a separator character;
absent if the separator does not occur. -/
def breakOnChar (sep : Char) : List Char → Option (List Char × List Char)
  | [] => none
  | c :: cs =>
    if c = sep then some ([], cs)
    else (breakOnChar sep cs).map (fun p => (c :: p.1, p.2))

/-- Break a character list at the first occurrence of a double colon. -/
def breakOnDoubleColon : List Char → Option (List Char × List Char)
  | [] => none
  | ':' :: ':' :: rest => some ([], rest)
  | c :: cs => (breakOnDoubleColon cs).map (fun p => (c :: p.1, p.2))

/-- Python `v.split(sep)` for a one-character separator. -/
def pySplit (sep : Char) (s : String) : List String :=
  (splitOnChar sep s.data).map (fun l => String.mk l)

/-- Python `v.split(sep, 1)` for a one-character separator. -/
def pySplit1 (sep : Char) (s : String) : List String :=
  match breakOnChar sep s.data with
  | none => [s]
  | some (l, r) => [String.mk l, String.mk r]

/-- Numeric value of a hexadecimal digit character. -/
def hexVal (c : Char) : Option Nat :=
  if c.isDigit then some (c.toNat - 48)
  else if c ≥ 'a' ∧ c ≤ 'f' then some (c.toNat - 87)
  else if c ≥ 'A' ∧ c ≤ 'F' then some (c.toNat - 55)
  else none

/-- Value of one IPv6 group: one to four hexadecimal digits. -/
def hexGroupVal (g : List Char) : Option Nat :=
  if g.length = 0 ∨ g.length > 4 then none
  else (g.mapM hexVal).map (fun ds => ds.foldl (fun a d => a * 16 + d) 0)

/-- Value of one IPv4 octet: one to three decimal digits, no leading zero,
at most 255, as accepted by ipaddress.IPv4Address. -/
def octetVal (g : List Char) : Option Nat :=
  if g.length = 0 ∨ g.length > 3 then none
  else if ¬ g.all Char.isDigit then none
  else if g.length > 1 ∧ g.headD '0' = '0' then none
  else
    let n := g.foldl (fun a c => a * 10 + (c.toNat - 48)) 0
    if n ≤ 255 then some n else none

/-- Textual IPv4 parse, modelled from ipaddress.IPv4Address: exactly four
dot-separated octets. -/
def parseIPv4 (s : String) : Option IPAddress :=
  match (splitOnChar '.' s.data).mapM octetVal with
  | some (a :: b :: c :: d :: []) => some (.v4 a b c d)
  | _ => none

/-- Textual IPv6 parse, modelled from ipaddress.IPv6Address: eight hex groups,
with at most one double-colon compression standing for at least one zero
group (embedded IPv4 suffixes and zone ids are not modelled). -/
def parseIPv6 (s : String) : Option IPAddress :=
  match breakOnDoubleColon s.data with
  | none =>
    match (splitOnChar ':' s.data).mapM hexGroupVal with
    | some gs => if gs.length = 8 then some (.v6 gs) else none
    | none => none
  | some (l, r) =>
    if (breakOnDoubleColon r).isSome then none
    else
      let lg := if l.isEmpty then some [] else (splitOnChar ':' l).mapM hexGroupVal
      let rg := if r.isEmpty then some [] else (splitOnChar ':' r).mapM hexGroupVal
      match lg, rg with
      | some a, some b =>
        if a.length + b.length ≤ 7 then
          some (.v6 (a ++ List.replicate (8 - a.length - b.length) 0 ++ b))
        else none
      | _, _ => none

/-- Python ipaddress.ip_address applied to a string: IPv4 form first, then
IPv6 form; absence models the ValueError raise. -/
def ip_address (s : String) : Option IPAddress :=
  match parseIPv4 s with
  | some a => some a
  | none => parseIPv6 s

/-- Decimal value of a digit list. -/
def natOfDigits (ds : List Char) : Nat :=
  ds.foldl (fun a c => a * 10 + (c.toNat - 48)) 0

/-- Python `int(s)` on a string: optional surrounding whitespace, optional
sign, then decimal digits; absence models the ValueError raise (digit-group
underscores are not modelled). -/
def pyInt (s : String) : Option Int :=
  let t := ((s.data.dropWhile Char.isWhitespace).reverse.dropWhile
              Char.isWhitespace).reverse
  match t with
  | [] => none
  | c :: ds =>
    if c = '-' then
      if ds ≠ [] ∧ ds.all Char.isDigit then some (-(natOfDigits ds : Int)) else none
    else if c = '+' then
      if ds ≠ [] ∧ ds.all Char.isDigit then some ((natOfDigits ds : Int)) else none
    else if (c :: ds).all Char.isDigit then some ((natOfDigits (c :: ds) : Int))
    else none

/-- Join strings with a separator, like Python `sep.join(parts)`. -/
def joinWith (sep : String) : List String → String
  | [] => ""
  | [x] => x
  | x :: xs => x ++ sep ++ joinWith sep xs

/-- Lowercase hexadecimal text of one IPv6 group. -/
def v6GroupStr (n : Nat) : String :=
  String.mk (Nat.toDigits 16 n)

/-- Length of the run of zero groups at the head of the list. -/
def runLen : List Nat → Nat
  | 0 :: rest => 1 + runLen rest
  | _ => 0

/-- Start index and length of the leftmost longest run of zero groups. -/
def bestRunAux : List Nat → Nat → Nat × Nat
  | [], _ => (0, 0)
  | g :: rest, i =>
    let here := if g = 0 then 1 + runLen rest else 0
    let best := bestRunAux rest (i + 1)
    if here ≥ best.2 then (i, here) else best

/-- Canonical IPv6 text, modelled from ipaddress.IPv6Address string form:
lowercase hex groups, the leftmost longest run of two or more zero groups
compressed to a double colon. -/
def v6Str (gs : List Nat) : String :=
  let best := bestRunAux gs 0
  if best.2 ≥ 2 then
    joinWith ":" ((gs.take best.1).map v6GroupStr) ++ "::" ++
      joinWith ":" ((gs.drop (best.1 + best.2)).map v6GroupStr)
  else joinWith ":" (gs.map v6GroupStr)

/-- Python `str(...)` of an address object. -/
def ipStr : IPAddress → String
  | .v4 a b c d => joinWith "." [toString a, toString b, toString c, toString d]
  | .v6 gs => v6Str gs

/-- Platform capability probe, modelling socket.has_dualstack_ipv6(). -/
structure Platform where
  has_dualstack_ipv6 : Bool

/-- One socket.getaddrinfo result tuple
(family, type, proto, canonname, sockaddr); only the first element of the
sockaddr (the address text) is modelled. -/
structure AddrInfo where
  family : Nat
  type : Nat
  proto : Nat
  canonname : String
  text : String

/-- The Python host argument of IPResource: None, a string (possibly empty),
or an ipaddress object. -/
inductive HostArg where
  | null : HostArg
  | name : String → HostArg
  | lit : IPAddress → HostArg

/-- The concrete Python class of a resource descriptor (TCPResource or
UDPResource); dataclass equality distinguishes the classes. -/
inductive ResKind where
  | tcp : ResKind
  | udp : ResKind
deriving DecidableEq

/-- An IPResource descriptor after construction (lines 82-157): the frozen
dataclass fields, with the bound address stored as the pair of the host
string produced at line 157 and the port.  The dualstack field is kept as an
option so that the unset sentinel None is representable. -/
structure IPResource where
  kind : ResKind
  family : Nat
  type : Nat
  host : String
  port : Int
  protocol : Nat
  dualstack : Option Bool
deriving DecidableEq

/-- Python ipaddress.IPv4Address constructor on text, raising ValueError on a
malformed literal. -/
def pyIPv4Address (s : String) : Except PyErr IPAddress :=
  match parseIPv4 s with
  | some a => .ok a
  | none => .error (.valueError (s ++ " does not appear to be an IPv4 address"))

/-- Python ipaddress.IPv6Address constructor on text, raising ValueError on a
malformed literal. -/
def pyIPv6Address (s : String) : Except PyErr IPAddress :=
  match parseIPv6 s with
  | some a => .ok a
  | none => .error (.valueError (s ++ " does not appear to be an IPv6 address"))

/-- The getaddrinfo loop of IPResource.__init__ (lines 128-136): take the
first result whose family is AF_INET6 or AF_INET, building the address object
from its text; the for-else raises ValueError when no result matches.  The
loop variable `protocol` shadows the parameter, so the matched entry's proto
is what construction later stores. -/
def resolveHostLoop (host : String) : List AddrInfo → Except PyErr (IPAddress × Nat)
  | [] => .error (.valueError ("can not resolve " ++ host))
  | e :: rest =>
    if e.family = AF_INET6 then
      match pyIPv6Address e.text with
      | .error err => .error err
      | .ok a => .ok (a, e.proto)
    else if e.family = AF_INET then
      match pyIPv4Address e.text with
      | .error err => .error err
      | .ok a => .ok (a, e.proto)
    else resolveHostLoop host rest

/-- Lines 127-136 of IPResource.__init__: a truthy host that is not an
address object is resolved; a falsy host (None or the empty string) and
address objects pass through, leaving the protocol argument unshadowed. -/
def IPResource.resolveStep (gai : List AddrInfo) (host0 : HostArg)
    (protocol : Nat) : Except PyErr (Option IPAddress × Nat) :=
  match host0 with
  | .null => .ok (none, protocol)
  | .lit a => .ok (some a, protocol)
  | .name s =>
    if s = "" then .ok (none, protocol)
    else
      match resolveHostLoop s gai with
      | .error err => .error err
      | .ok (a, p) => .ok (some a, p)

/-- Lines 152-157 of IPResource.__init__: the dual-stack availability check,
then the frozen-field write and the SocketResource constructor call with the
host rendered to a string. -/
def IPResource.finish (plat : Platform) (kind : ResKind) (type : Nat)
    (host : String) (port : Int) (protocol : Nat) (family : Nat)
    (dualstack_val : Bool) : Except PyErr IPResource :=
  if dualstack_val ∧ ¬ plat.has_dualstack_ipv6 then
    .error (.valueError "dual-stack requested but not available")
  else
    .ok { kind, family, type, host, port, protocol, dualstack := some dualstack_val }

/-- Lines 138-157 of IPResource.__init__: family and dual-stack deduction
from the resolved host (`dualstack or False` for an IPv6 literal; always
false for IPv4; platform-and-request driven for a wildcard host), then the
availability check and field writes. -/
def IPResource.initCore (plat : Platform) (kind : ResKind) (type : Nat)
    (host : Option IPAddress) (port : Int) (protocol : Nat)
    (dualstack : Option Bool) : Except PyErr IPResource :=
  match host with
  | some (.v6 g) =>
    IPResource.finish plat kind type (ipStr (.v6 g)) port protocol AF_INET6
      (dualstack.getD false)
  | some (.v4 a b c d) =>
    IPResource.finish plat kind type (ipStr (.v4 a b c d)) port protocol AF_INET
      false
  | none =>
    if plat.has_dualstack_ipv6 ∧ dualstack ≠ some false then
      IPResource.finish plat kind type "" port protocol AF_INET6 true
    else
      IPResource.finish plat kind type "" port protocol AF_INET false

/-- IPResource.__init__ (lines 124-157): resolution step followed by family
deduction and construction.  The getaddrinfo results and the platform
dual-stack probe are oracle inputs. -/
def IPResource.init (plat : Platform) (gai : List AddrInfo) (kind : ResKind)
    (type : Nat) (addr : HostArg × Int) (protocol : Nat)
    (dualstack : Option Bool) : Except PyErr IPResource :=
  match IPResource.resolveStep gai addr.1 protocol with
  | .error e => .error e
  | .ok (host, protocol2) =>
    IPResource.initCore plat kind type host addr.2 protocol2 dualstack

/-- TCPResource.__init__ (lines 213-214). -/
def TCPResource.init (plat : Platform) (gai : List AddrInfo)
    (addr : HostArg × Int) (dualstack : Option Bool) : Except PyErr IPResource :=
  IPResource.init plat gai .tcp SOCK_STREAM addr IPPROTO_TCP dualstack

/-- UDPResource.__init__ (lines 241-242). -/
def UDPResource.init (plat : Platform) (gai : List AddrInfo)
    (addr : HostArg × Int) (dualstack : Option Bool) : Except PyErr IPResource :=
  IPResource.init plat gai .udp SOCK_DGRAM addr IPPROTO_UDP dualstack

/-- IPResource.decode_addr (lines 159-172).  The try block catches only
KeyError and ValueError, so the IndexError raised by args[0] or args[1] on a
short list propagates.  Both return statements build a pair, although the
annotation promises a triple: the local dualstack value computed at lines
166-170 (0 when the marker token is absent) is not part of either returned
tuple. -/
def IPResource.decode_addr (args : List String) :
    Except PyErr (Option (Option IPAddress × Int) × List String) :=
  match args.get? 0 with
  | none => .error .indexError
  | some a0 =>
    let hostTry : Option (Option IPAddress) :=
      if a0 = "" then some none
      else
        match ip_address a0 with
        | some h => some (some h)
        | none => none
    match hostTry with
    | none => .ok (none, args)
    | some host =>
      match args.get? 1 with
      | none => .error .indexError
      | some a1 =>
        match pyInt a1 with
        | none => .ok (none, args)
        | some port =>
          let ri : Nat :=
            match args.get? 2 with
            | some a2 => if a2 = "single" ∨ a2 = "dual" then 3 else 2
            | none => 2
          .ok (some (host, port), args.drop ri)

/-- IPResource.encode_addr (lines 174-179): host text (empty for wildcard),
port text, and a stack marker whenever the dualstack attribute is not None. -/
def IPResource.encode_addr (r : IPResource) : List String :=
  let extra : List String :=
    match r.dualstack with
    | none => []
    | some b => [if b then "dual" else "single"]
  [(if r.host = "" then "" else r.host), toString r.port] ++ extra

/-- IPResource.check_ipv4 (lines 181-188). -/
def IPResource.check_ipv4 (addr : Option IPAddress × Int) :
    Except PyErr (Option IPAddress × Int) :=
  match addr with
  | (none, port) => .ok (some (.v4 0 0 0 0), port)
  | (some (.v6 g), _) =>
    let _ := g
    .error (.valueError "IPv6 address given for IPv4 socket")
  | a => .ok a

/-- IPResource.check_ipv6 (lines 190-197). -/
def IPResource.check_ipv6 (addr : Option IPAddress × Int) :
    Except PyErr (Option IPAddress × Int) :=
  match addr with
  | (none, port) => .ok (some (.v6 (List.replicate 8 0)), port)
  | (some (.v4 a b c d), _) =>
    let _ := (a, b, c, d)
    .error (.valueError "IPv4 address given for IPv6 socket")
  | a => .ok a

/-- TCPResource.decode_spec (lines 216-225).  Line 218 unpacks the result of
decode_addr into three targets, but decode_addr returns a pair, so CPython
raises ValueError there on every call on which decode_addr itself returns;
the family checks and the constructor call below line 218 are unreachable. -/
def TCPResource.decode_spec (ident : String) (args : List String) :
    Except PyErr IPResource :=
  let _ := ident
  match IPResource.decode_addr args with
  | .error e => .error e
  | .ok _ => .error (.valueError "not enough values to unpack (expected 3, got 2)")

/-- UDPResource.decode_spec (lines 244-253), with the same unpacking failure
at line 246 as TCPResource.decode_spec. -/
def UDPResource.decode_spec (ident : String) (args : List String) :
    Except PyErr IPResource :=
  let _ := ident
  match IPResource.decode_addr args with
  | .error e => .error e
  | .ok _ => .error (.valueError "not enough values to unpack (expected 3, got 2)")

/-- TCPResource.encode_spec (lines 227-235).  The stored host is the string
written at line 157, so the isinstance tests against the address classes are
always false; only the empty-host branch assigns ident, and any other host
reaches `return ident` with ident unbound. -/
def TCPResource.encode_spec (r : IPResource) : Except PyErr (String × List String) :=
  if r.host = "" then .ok ("tcp", r.encode_addr)
  else .error (.unboundLocalError "ident")

/-- UDPResource.encode_spec (lines 255-263): same structure (the second
branch is a plain if rather than elif, which does not change the outcome
since the isinstance tests are always false on the stored string). -/
def UDPResource.encode_spec (r : IPResource) : Except PyErr (String × List String) :=
  if r.host = "" then .ok ("udp", r.encode_addr)
  else .error (.unboundLocalError "ident")

/-- Dynamic dispatch of encode_spec on the concrete class of the resource. -/
def IPResource.encode_spec (r : IPResource) : Except PyErr (String × List String) :=
  match r.kind with
  | .tcp => TCPResource.encode_spec r
  | .udp => UDPResource.encode_spec r

/-- encode_resource_spec (lines 265-267). -/
def encode_resource_spec (r : IPResource) : Except PyErr String :=
  match r.encode_spec with
  | .error e => .error e
  | .ok (ident, args) => .ok (ident ++ "," ++ joinWith "," args)

/-- The RESOURCE_IDENTS registry (line 34), populated by __init_subclass__
from the IDENTS tuples of TCPResource (line 211) and UDPResource (line 239). -/
def RESOURCE_IDENTS (ident : String) : Option ResKind :=
  if ident = "tcp" ∨ ident = "tcp4" ∨ ident = "tcp6" then some .tcp
  else if ident = "udp" ∨ ident = "udp4" ∨ ident = "udp6" then some .udp
  else none

/-- decode_resource_spec (lines 269-276): split on commas, look the first
token up in the registry (absence for an unknown identifier), then call the
class decode_spec under a bare except that converts any raise to absence. -/
def decode_resource_spec (value : String) : Option IPResource :=
  let parts := pySplit ',' value
  let ident := parts.headD ""
  let args := parts.tail
  match RESOURCE_IDENTS ident with
  | none => none
  | some k =>
    match (match k with
           | .tcp => TCPResource.decode_spec ident args
           | .udp => UDPResource.decode_spec ident args) with
    | .ok r => some r
    | .error _ => none

/-- OS state for the descriptor-inheritance primitives: the set of open
descriptors and the set of descriptors whose inheritable flag is set. -/
structure FdTable where
  opened : List Int
  inheritable : List Int
deriving DecidableEq

/-- Model of os.set_inheritable(fd, True). -/
def os_set_inheritable (st : FdTable) (fd : Int) : FdTable :=
  { st with inheritable := fd :: st.inheritable }

/-- encode_fd (lines 67-69): mark the given descriptor itself inheritable and
return its number as text; no new descriptor is opened. -/
def encode_fd (st : FdTable) (fd : Int) : FdTable × String :=
  (os_set_inheritable st fd, toString fd)

/-- SocketResource.encode (lines 105-106): encode_fd applied to the fileno of
the live handle; a handle is modelled by its descriptor number. -/
def SocketResource.encode (st : FdTable) (inst : Int) : FdTable × String :=
  encode_fd st inst

/-- Oracles for the OS effects used while restoring a collection: os.dup on a
claimed descriptor (absent on OSError), wrapping a descriptor into a socket
object (absent when the SocketType constructor raises), and create(), which
opens and binds a fresh socket for a descriptor. -/
structure OSModel where
  dup : Int → Option Int
  fromFd : Int → Option Int
  create : IPResource → Int

/-- decode_fd (lines 71-80): parse the text as an integer, then validate the
descriptor by duplicating it; absence on either failure. -/
def decode_fd (os : OSModel) (val : String) : Option Int :=
  match pyInt val with
  | none => none
  | some fd => os.dup fd

/-- SocketResource.decode (lines 108-116): decode_fd, then wrap the validated
descriptor into a socket object, with any constructor raise giving absence. -/
def SocketResource.decode (os : OSModel) (value : String) : Option Int :=
  match decode_fd os value with
  | none => none
  | some fd => os.fromFd fd

/-- The entry loop of decode_resource_values (lines 289-299): each entry is
split once on a comma into handle value and spec body; an undecodable spec
body is a hard ValueError; a repeated descriptor is skipped; otherwise the
handle value is decoded, falling back to create() on absence.  The Python
dict keyed by descriptor is modelled by an association list in insertion
order. -/
def decodeValuesGo (os : OSModel) : List String → List (IPResource × Int) →
    Except PyErr (List (IPResource × Int))
  | [], r => .ok r
  | v :: rest, r =>
    match pySplit1 ',' v with
    | [value, spec] =>
      (match decode_resource_spec spec with
       | none => .error (.valueError ("invalid resource specification: " ++ spec))
       | some rtype =>
         if r.any (fun p => decide (p.1 = rtype)) then decodeValuesGo os rest r
         else
           match SocketResource.decode os value with
           | none => decodeValuesGo os rest (r ++ [(rtype, os.create rtype)])
           | some inst => decodeValuesGo os rest (r ++ [(rtype, inst)]))
    | _ => .error (.valueError "not enough values to unpack (expected 2, got 1)")

/-- decode_resource_values (lines 287-300): split the aggregate string on
semicolons and process each entry in order. -/
def decode_resource_values (os : OSModel) (values : String) :
    Except PyErr (List (IPResource × Int)) :=
  decodeValuesGo os (pySplit ';' values) []

/-- Claim C1 (code bug).  The claim states that decoding the spec string
produced by encoding a TCP or UDP resource yields a descriptor equal to the
original.  In the code the decode side always fails: decode_spec unpacks the
pair returned by decode_addr into three targets and raises ValueError, which
the bare except of decode_resource_spec converts to absence.  Shown here on
the wildcard TCP resource for port 8080 on a dual-stack platform: encoding
yields the spec string, and decoding that very string yields no descriptor at
all. -/
theorem spec_roundtrip_broken :
    IPResource.init ⟨true⟩ [] .tcp SOCK_STREAM (.null, 8080) IPPROTO_TCP none
      = .ok ⟨.tcp, AF_INET6, SOCK_STREAM, "", 8080, IPPROTO_TCP, some true⟩
    ∧ encode_resource_spec ⟨.tcp, AF_INET6, SOCK_STREAM, "", 8080, IPPROTO_TCP, some true⟩
      = .ok "tcp,,8080,dual"
    ∧ decode_resource_spec "tcp,,8080,dual" = none := by
  refine ⟨by decide, by decide, by decide⟩

/-- Claim C2 (code bug).  The claim states that decode_addr on the token
list consisting of the empty host and the port text 8080 returns the
wildcard address, port 8080, and an unset dual-stack request.  The code
returns the pair of the address and the leftover tokens only: the dual-stack
component promised by the annotation and expected by both decode_spec call
sites is missing from the result (the local dualstack variable, set to 0
rather than the None sentinel when the marker token is absent, is
discarded). -/
theorem decode_addr_drops_dualstack :
    IPResource.decode_addr ["", "8080"] = .ok (some (none, 8080), []) := by
  decide

/-- Claim C3 (code bug).  The claim states that encode_spec picks the
v4-suffixed or v6-suffixed identifier by inspecting the literal host and
never fails.  Construction stores the host as a plain string, so the
isinstance tests in encode_spec never match and ident is left unassigned:
for the TCP resource bound to the IPv4 literal 10.0.0.1 the code raises
UnboundLocalError instead of returning the tcp4 identifier (only the
empty-host branch, giving the bare identifier, works). -/
theorem encode_spec_unbound_ident :
    TCPResource.init ⟨true⟩ [] (.lit (.v4 10 0 0 1), 80) none
      = .ok ⟨.tcp, AF_INET, SOCK_STREAM, "10.0.0.1", 80, IPPROTO_TCP, some false⟩
    ∧ TCPResource.encode_spec
        ⟨.tcp, AF_INET, SOCK_STREAM, "10.0.0.1", 80, IPPROTO_TCP, some false⟩
      = .error (.unboundLocalError "ident")
    ∧ IPResource.encode_spec
        ⟨.tcp, AF_INET6, SOCK_STREAM, "", 8080, IPPROTO_TCP, some true⟩
      = .ok ("tcp", ["", "8080", "dual"]) := by
  refine ⟨by decide, by decide, by decide⟩

/-- Claim C4 (code bug).  The claim states that decode_addr returns absence
with the original tokens for every malformed or incomplete token list and
never raises.  That holds for a malformed host or port (the except clause
catches the ValueError), but the clause catches KeyError instead of the
IndexError that list indexing actually raises, so a token list with fewer
than two tokens raises IndexError: shown on the single-token list whose host
parses as the wildcard. -/
theorem decode_addr_short_list_raises :
    IPResource.decode_addr ["not-an-ip", "8080"]
      = .ok (none, ["not-an-ip", "8080"])
    ∧ IPResource.decode_addr ["1.2.3.4", "x"]
      = .ok (none, ["1.2.3.4", "x"])
    ∧ IPResource.decode_addr [""] = .error .indexError := by
  refine ⟨by decide, by decide, by decide⟩

/-- Claim C5 (code bug).  The claim states that decode_spec with the tcp6
identifier and the IPv4 literal raises FamilyMismatchError while the tcp4
identifier succeeds with family IPv4.  Both calls instead raise the
ValueError of unpacking the decode_addr pair into three targets at line 218,
before the family check or the construction is ever reached, so tcp6 raises
the wrong error and tcp4 does not succeed. -/
theorem decode_spec_unpack_error :
    TCPResource.decode_spec "tcp6" ["10.0.0.1", "80"]
      = .error (.valueError "not enough values to unpack (expected 3, got 2)")
    ∧ TCPResource.decode_spec "tcp4" ["10.0.0.1", "80"]
      = .error (.valueError "not enough values to unpack (expected 3, got 2)") := by
  refine ⟨by decide, by decide⟩

/-- Claim C8 (code bug).  The claim states that an entry whose descriptor
decodes but whose handle value does not is restored by creating a fresh
handle, with the whole restore succeeding.  Because decode_spec always
raises (the line 218 unpacking failure), no spec body of a registered kind
ever decodes to a descriptor, so decode_resource_values raises its hard
ValueError on every such entry and the create() fallback at line 297 is
unreachable: shown on a wildcard TCP entry whose claimed descriptor 5 is not
a valid fd (the dup oracle reports failure for every descriptor). -/
theorem restore_fallback_unreachable :
    decode_resource_values ⟨fun _ => none, fun _ => none, fun _ => 0⟩
        "5,tcp,,8080,dual"
      = .error (.valueError "invalid resource specification: tcp,,8080,dual") := by
  decide

/-- Claim C9, counterexample.  The claim states that encode duplicates the
handle's descriptor, marks the duplicate (not the original) inheritable, and
returns the duplicate's identity.  Starting from a table in which only
descriptor 5 is open and nothing is inheritable, encode returns the text of
the original descriptor 5, leaves the set of open descriptors unchanged (so
no duplicate was created), and marks the original 5 itself inheritable. -/
theorem encode_marks_original_fd :
    SocketResource.encode ⟨[5], []⟩ 5 = (⟨[5], [5]⟩, "5") := by
  decide

/-- Claim C9 (corrected).  encode marks the handle's own descriptor
inheritable and returns that same descriptor's number as text; the set of
open descriptors is unchanged, so no duplicate is created and the returned
identity stays tied to the original descriptor. -/
theorem encode_no_duplicate (st : FdTable) (fd : Int) :
    (SocketResource.encode st fd).2 = toString fd
    ∧ (SocketResource.encode st fd).1.opened = st.opened
    ∧ (SocketResource.encode st fd).1.inheritable = fd :: st.inheritable :=
  ⟨rfl, rfl, rfl⟩

/-- Claim C6, counterexample.  The claim states that an IPv6 resolver result
is preferred over an IPv4 one regardless of order.  With the resolver
returning the IPv4 entry 10.0.0.1 first and the IPv6 entry ::1 second for
the host name example.com, construction uses the IPv4 entry: the resulting
family is AF_INET (2), not AF_INET6 (10). -/
theorem resolution_order_counterexample :
    IPResource.init ⟨true⟩
        [⟨AF_INET, SOCK_STREAM, IPPROTO_TCP, "", "10.0.0.1"⟩,
         ⟨AF_INET6, SOCK_STREAM, IPPROTO_TCP, "", "::1"⟩]
        .tcp SOCK_STREAM (.name "example.com", 80) IPPROTO_TCP none
      = .ok ⟨.tcp, AF_INET, SOCK_STREAM, "10.0.0.1", 80, IPPROTO_TCP, some false⟩
    ∧ AF_INET = 2 ∧ AF_INET6 = 10 := by
  refine ⟨by decide, rfl, rfl⟩

/-- Unfolding equation of IPResource.init on a literal address pair. -/
theorem IPResource.init_eq (plat : Platform) (gai : List AddrInfo)
    (kind : ResKind) (type : Nat) (host0 : HostArg) (port : Int)
    (protocol : Nat) (ds : Option Bool) :
    IPResource.init plat gai kind type (host0, port) protocol ds
      = match IPResource.resolveStep gai host0 protocol with
        | .error e => .error e
        | .ok (host, protocol2) =>
          IPResource.initCore plat kind type host port protocol2 ds := rfl

/-- A finish that returns a descriptor returns exactly the record of its
arguments, and a true dual-stack value implies platform support. -/
theorem IPResource.finish_ok (plat : Platform) (kind : ResKind) (type : Nat)
    (host : String) (port : Int) (protocol : Nat) (family : Nat) (b : Bool)
    (r : IPResource)
    (h : IPResource.finish plat kind type host port protocol family b = .ok r) :
    r = { kind, family, type, host, port, protocol, dualstack := some b }
    ∧ (b = true → plat.has_dualstack_ipv6 = true) := by
  unfold IPResource.finish at h
  split at h
  · exact Except.noConfusion h
  · rename_i hc
    refine ⟨(Except.ok.inj h).symm, ?_⟩
    intro hb
    subst hb
    by_contra hp
    exact hc ⟨rfl, hp⟩

/-- A descriptor whose dual-stack field is set emits an explicit stack
marker as its third address token. -/
theorem IPResource.encode_addr_of_dualstack (r : IPResource) (b : Bool)
    (hb : r.dualstack = some b) :
    r.encode_addr = [(if r.host = "" then "" else r.host), toString r.port,
                     (if b then "dual" else "single")] := by
  unfold IPResource.encode_addr
  rw [hb]
  rfl

/-- Claim C10 (confirmed).  Every successfully constructed IPResource
carries a concrete boolean dual-stack value (the unset sentinel never
survives construction), that value is true only when the family is AF_INET6
and the platform supports dual-stack sockets, and consequently encode_addr
always emits an explicit single or dual marker as its third token. -/
theorem dualstack_always_concrete (plat : Platform) (gai : List AddrInfo)
    (kind : ResKind) (type : Nat) (addr : HostArg × Int) (protocol : Nat)
    (ds : Option Bool) (r : IPResource)
    (h : IPResource.init plat gai kind type addr protocol ds = .ok r) :
    ∃ b, r.dualstack = some b
      ∧ (b = true → r.family = AF_INET6 ∧ plat.has_dualstack_ipv6 = true)
      ∧ r.encode_addr = [(if r.host = "" then "" else r.host), toString r.port,
                         (if b then "dual" else "single")] := by
  unfold IPResource.init at h
  split at h
  · exact Except.noConfusion h
  · rename_i host protocol2 heq
    unfold IPResource.initCore at h
    split at h
    · obtain ⟨hr, hp⟩ := IPResource.finish_ok _ _ _ _ _ _ _ _ _ h
      subst hr
      exact ⟨_, rfl, fun hb => ⟨rfl, hp hb⟩,
        IPResource.encode_addr_of_dualstack _ _ rfl⟩
    · obtain ⟨hr, hp⟩ := IPResource.finish_ok _ _ _ _ _ _ _ _ _ h
      subst hr
      refine ⟨false, rfl, ?_, IPResource.encode_addr_of_dualstack _ _ rfl⟩
      intro hb
      exact absurd hb (by decide)
    · split at h
      · rename_i hcond
        obtain ⟨hr, hp⟩ := IPResource.finish_ok _ _ _ _ _ _ _ _ _ h
        subst hr
        exact ⟨true, rfl, fun _ => ⟨rfl, hcond.1⟩,
          IPResource.encode_addr_of_dualstack _ _ rfl⟩
      · obtain ⟨hr, hp⟩ := IPResource.finish_ok _ _ _ _ _ _ _ _ _ h
        subst hr
        refine ⟨false, rfl, ?_, IPResource.encode_addr_of_dualstack _ _ rfl⟩
        intro hb
        exact absurd hb (by decide)

/-- Witness for claim C10 at a concrete input: the wildcard TCP resource on
a dual-stack platform. -/
theorem dualstack_always_concrete_w :
    ∃ b, (⟨ResKind.tcp, AF_INET6, SOCK_STREAM, "", 8080, IPPROTO_TCP,
           some true⟩ : IPResource).dualstack = some b := by
  obtain ⟨b, hb, -, -⟩ := dualstack_always_concrete ⟨true⟩ [] .tcp SOCK_STREAM
    (.null, 8080) IPPROTO_TCP none
    ⟨.tcp, AF_INET6, SOCK_STREAM, "", 8080, IPPROTO_TCP, some true⟩ (by decide)
  exact ⟨b, hb⟩

/-- The resolution loop raises the can-not-resolve ValueError when no result
has an IPv4 or IPv6 family. -/
theorem resolveHostLoop_no_match (s : String) (gai : List AddrInfo)
    (h : ∀ x ∈ gai, ¬ x.family = AF_INET ∧ ¬ x.family = AF_INET6) :
    resolveHostLoop s gai = .error (.valueError ("can not resolve " ++ s)) := by
  induction gai with
  | nil => rfl
  | cons e rest ih =>
    have he := h e (List.mem_cons_self e rest)
    unfold resolveHostLoop
    rw [if_neg he.2, if_neg he.1]
    exact ih (fun x hx => h x (List.mem_cons_of_mem e hx))

/-- The resolution loop skips over a prefix of results whose families are
neither IPv4 nor IPv6. -/
theorem resolveHostLoop_skip (s : String) (pre l : List AddrInfo)
    (h : ∀ x ∈ pre, ¬ x.family = AF_INET ∧ ¬ x.family = AF_INET6) :
    resolveHostLoop s (pre ++ l) = resolveHostLoop s l := by
  induction pre with
  | nil => rfl
  | cons e rest ih =>
    have he := h e (List.mem_cons_self e rest)
    have step : resolveHostLoop s (e :: (rest ++ l))
        = resolveHostLoop s (rest ++ l) := by
      conv_lhs => unfold resolveHostLoop
      rw [if_neg he.2, if_neg he.1]
    rw [List.cons_append, step]
    exact ih (fun x hx => h x (List.mem_cons_of_mem e hx))

/-- A successful textual IPv4 parse always produces a v4 value. -/
theorem parseIPv4_shape (s : String) (a : IPAddress)
    (h : parseIPv4 s = some a) : ∃ w x y z, a = IPAddress.v4 w x y z := by
  unfold parseIPv4 at h
  rcases hm : (splitOnChar '.' s.data).mapM octetVal with _ | l
  · rw [hm] at h
    exact Option.noConfusion h
  · rw [hm] at h
    rcases l with _ | ⟨w, _ | ⟨x, _ | ⟨y, _ | ⟨z, _ | _⟩⟩⟩⟩ <;>
      first
        | exact Option.noConfusion h
        | exact ⟨w, x, y, z, (Option.some.inj h).symm⟩

/-- Claim C6 (corrected).  When an IPResource is constructed with a host
name, the first resolver result whose family is IPv4 or IPv6 determines the
host and the stored protocol — IPv6 is not preferred over an earlier IPv4
result — and when no IPv4 or IPv6 result exists, construction fails with the
resolution ValueError.  Stated as: (a) construction fails with the
can-not-resolve error when no result matches; (b) when the first matching
result is an IPv4 entry, construction succeeds with family AF_INET and that
entry's address, whatever IPv6 entries follow it. -/
theorem name_resolution_first_match (plat : Platform) (kind : ResKind)
    (type : Nat) (s : String) (port : Int) (protocol : Nat) (ds : Option Bool)
    (hs : ¬ s = "") :
    (∀ gai : List AddrInfo,
       (∀ x ∈ gai, ¬ x.family = AF_INET ∧ ¬ x.family = AF_INET6) →
       IPResource.init plat gai kind type (.name s, port) protocol ds
         = .error (.valueError ("can not resolve " ++ s)))
    ∧ (∀ (pre : List AddrInfo) (e : AddrInfo) (rest : List AddrInfo)
         (a : IPAddress),
       (∀ x ∈ pre, ¬ x.family = AF_INET ∧ ¬ x.family = AF_INET6) →
       e.family = AF_INET → parseIPv4 e.text = some a →
       ∃ r, IPResource.init plat (pre ++ e :: rest) kind type (.name s, port)
              protocol ds = .ok r
            ∧ r.family = AF_INET ∧ r.host = ipStr a ∧ r.protocol = e.proto
            ∧ r.dualstack = some false) := by
  constructor
  · intro gai hg
    have hres : IPResource.resolveStep gai (HostArg.name s) protocol
        = .error (.valueError ("can not resolve " ++ s)) := by
      unfold IPResource.resolveStep
      dsimp only
      rw [if_neg hs, resolveHostLoop_no_match s gai hg]
    rw [IPResource.init_eq, hres]
  · intro pre e rest a hpre he ha
    obtain ⟨w, x, y, z, hv⟩ := parseIPv4_shape e.text a ha
    subst hv
    have hloop : resolveHostLoop s (pre ++ e :: rest)
        = .ok (IPAddress.v4 w x y z, e.proto) := by
      rw [resolveHostLoop_skip s pre (e :: rest) hpre]
      unfold resolveHostLoop
      rw [if_neg (by rw [he]; decide), if_pos he]
      unfold pyIPv4Address
      rw [ha]
    have hres : IPResource.resolveStep (pre ++ e :: rest) (HostArg.name s)
          protocol
        = .ok (some (IPAddress.v4 w x y z), e.proto) := by
      unfold IPResource.resolveStep
      dsimp only
      rw [if_neg hs, hloop]
    refine ⟨⟨kind, AF_INET, type, ipStr (IPAddress.v4 w x y z), port, e.proto,
             some false⟩, ?_, rfl, rfl, rfl, rfl⟩
    rw [IPResource.init_eq, hres]
    rfl

/-- Witness for claim C6 at a concrete input: a UDP name resolution whose
first matching result is IPv4, followed by an IPv6 result that is ignored,
and whose stored protocol is the matched entry's proto value 99. -/
theorem name_resolution_first_match_w :
    ∃ r, IPResource.init ⟨true⟩
        ([] ++ (⟨AF_INET, SOCK_DGRAM, 99, "", "10.0.0.1"⟩ : AddrInfo)
           :: [⟨AF_INET6, SOCK_DGRAM, 99, "", "::1"⟩])
        .udp SOCK_DGRAM (.name "dns.example", 53) IPPROTO_UDP none = .ok r
      ∧ r.family = AF_INET ∧ r.host = ipStr (.v4 10 0 0 1)
      ∧ r.protocol = 99 ∧ r.dualstack = some false := by
  exact (name_resolution_first_match ⟨true⟩ .udp SOCK_DGRAM "dns.example" 53
      IPPROTO_UDP none (by decide)).2
    [] ⟨AF_INET, SOCK_DGRAM, 99, "", "10.0.0.1"⟩
    [⟨AF_INET6, SOCK_DGRAM, 99, "", "::1"⟩] (.v4 10 0 0 1)
    (fun x hx => absurd hx (List.not_mem_nil x)) rfl (by decide)

/-- An identifier with no registered kind forces decode_resource_spec to
absence. -/
theorem decode_resource_spec_unknown (spec : String)
    (h : RESOURCE_IDENTS ((pySplit ',' spec).headD "") = none) :
    decode_resource_spec spec = none := by
  unfold decode_resource_spec
  dsimp only
  rw [h]

/-- The entry loop of decode_resource_values raises whenever some entry
splits into a handle value and a spec body whose identifier has no
registered kind, whatever accumulator it starts from. -/
theorem decodeValuesGo_error (os : OSModel) (entries : List String)
    (r : List (IPResource × Int))
    (h : ∃ v ∈ entries, ∃ value spec, pySplit1 ',' v = [value, spec] ∧
         RESOURCE_IDENTS ((pySplit ',' spec).headD "") = none) :
    ∃ e, decodeValuesGo os entries r = .error e := by
  induction entries generalizing r with
  | nil => simp at h
  | cons v rest ih =>
    obtain ⟨w, hw, value, spec, hsp, hid⟩ := h
    rcases List.mem_cons.mp hw with hwv | hw2
    · subst hwv
      unfold decodeValuesGo
      simp only [hsp]
      rw [decode_resource_spec_unknown spec hid]
      exact ⟨_, rfl⟩
    · unfold decodeValuesGo
      rcases h1 : pySplit1 ',' v with _ | ⟨x, _ | ⟨y, _ | ⟨z, t⟩⟩⟩ <;>
        simp only [h1]
      · exact ⟨_, rfl⟩
      · exact ⟨_, rfl⟩
      · rcases h2 : decode_resource_spec y with _ | rtype <;> simp only [h2]
        · exact ⟨_, rfl⟩
        · by_cases h3 : (List.any r fun p => decide (p.1 = rtype)) = true
          · rw [if_pos h3]
            exact ih r ⟨w, hw2, value, spec, hsp, hid⟩
          · rw [if_neg h3]
            rcases h4 : SocketResource.decode os x with _ | inst <;>
              simp only [h4]
            · exact ih (r ++ [(rtype, os.create rtype)])
                ⟨w, hw2, value, spec, hsp, hid⟩
            · exact ih (r ++ [(rtype, inst)]) ⟨w, hw2, value, spec, hsp, hid⟩
      · exact ⟨_, rfl⟩

/-- Claim C7 (confirmed).  If any entry of an aggregate collection string
carries an identifier with no registered resource kind, then
decode_resource_values raises a hard error and so returns no partial
descriptor-to-handle mapping. -/
theorem unknown_ident_aborts_restore (os : OSModel) (values : String)
    (h : ∃ v ∈ pySplit ';' values, ∃ value spec,
         pySplit1 ',' v = [value, spec] ∧
         RESOURCE_IDENTS ((pySplit ',' spec).headD "") = none) :
    ∃ e, decode_resource_values os values = .error e := by
  unfold decode_resource_values
  exact decodeValuesGo_error os (pySplit ';' values) [] h

/-- Witness for claim C7 at a concrete input: an aggregate string whose one
entry carries the unregistered identifier xyz. -/
theorem unknown_ident_aborts_restore_w :
    ∃ e, decode_resource_values ⟨fun _ => none, fun _ => none, fun _ => 0⟩
        "5,xyz,1" = .error e := by
  apply unknown_ident_aborts_restore
  exact ⟨"5,xyz,1", by decide, "5", "xyz,1", by decide, by decide⟩
